import Mathlib

/-!
Verification development for the Smart Todo List frontend.

The TypeScript sources are embedded shallowly: interfaces from
src/lib/api-service.ts become structures, the reducer from
src/contexts/task-context.tsx becomes a function on an explicit state
type, and the two task-creation handlers become functions from form data
to an outcome value. JavaScript string falsiness is modelled by equality
with the empty string, and Date comparison on ISO date strings is
modelled by the lexicographic string order. Numbers that the source
treats as floats (priority scores) are modelled as rationals.

Backend pieces that only have call sites in the repository (the
calculate-priority thresholds, the insight aggregation, the suggestion
fallback) are modelled from the specification and marked as such.
-/

namespace SmartTodo

/-- Priority union type from the Task interface in src/lib/api-service.ts. -/
inductive Priority
  | urgent
  | high
  | medium
  | low
deriving DecidableEq

/-- Status union type from the Task interface; inProgress stands for the
source literal "in-progress". -/
inductive Status
  | todo
  | inProgress
  | completed
deriving DecidableEq

/-- The inline category reference of the Task interface. -/
structure CategoryRef where
  id : String
  name : String
  color : String
deriving DecidableEq

/-- AISuggestions interface from src/lib/api-service.ts. -/
structure AISuggestions where
  suggested_deadline : Option String
  suggested_category : Option String
  enhanced_description : Option String
  reasoning : Option String
  priority_score : Option ℚ
deriving DecidableEq

/-- Task interface from src/lib/api-service.ts. -/
structure Task where
  id : String
  title : String
  description : String
  category : Option CategoryRef
  category_id : Option String
  priority : Priority
  priority_score : ℚ
  deadline : Option String
  status : Status
  ai_suggestions : Option AISuggestions
  tags : List String
  created_at : String
  updated_at : String
  is_overdue : Bool
  days_until_deadline : Option Int
deriving DecidableEq

/-- Category interface from src/lib/api-service.ts. -/
structure Category where
  id : String
  name : String
  color : String
  usage_frequency : Nat
  created_at : String
  updated_at : String
deriving DecidableEq

/-- The processed_insights value of the ContextEntry interface. -/
structure ProcessedInsights where
  keywords : List String
  sentiment : String
  urgency : ℚ
  extracted_tasks : Option (List String)
deriving DecidableEq

/-- ContextEntry interface from src/lib/api-service.ts. -/
structure ContextEntry where
  id : String
  content : String
  source_type : String
  processed_insights : ProcessedInsights
  created_at : String
  updated_at : String
deriving DecidableEq

/-- TaskState interface from src/contexts/task-context.tsx. -/
structure TaskState where
  tasks : List Task
  contexts : List ContextEntry
  categories : List Category
  loading : Bool
  error : Option String
deriving DecidableEq

/-- TaskAction union from src/contexts/task-context.tsx. -/
inductive TaskAction
  | SET_LOADING (payload : Bool)
  | SET_ERROR (payload : Option String)
  | SET_TASKS (payload : List Task)
  | ADD_TASK (payload : Task)
  | UPDATE_TASK (payload : Task)
  | DELETE_TASK (payload : String)
  | SET_CONTEXTS (payload : List ContextEntry)
  | ADD_CONTEXT (payload : ContextEntry)
  | SET_CATEGORIES (payload : List Category)

/-- taskReducer from src/contexts/task-context.tsx (lines 36 to 88). -/
def taskReducer (state : TaskState) (action : TaskAction) : TaskState :=
  match action with
  | .SET_LOADING payload => { state with loading := payload }
  | .SET_ERROR payload => { state with error := payload }
  | .SET_TASKS payload => { state with tasks := payload }
  | .ADD_TASK payload => { state with tasks := state.tasks ++ [payload] }
  | .UPDATE_TASK payload =>
      { state with
        tasks := state.tasks.map fun task =>
          if task.id = payload.id then payload else task }
  | .DELETE_TASK payload =>
      { state with
        tasks := state.tasks.filter fun task => decide (task.id ≠ payload) }
  | .SET_CONTEXTS payload => { state with contexts := payload }
  | .ADD_CONTEXT payload => { state with contexts := state.contexts ++ [payload] }
  | .SET_CATEGORIES payload => { state with categories := payload }

/-- JavaScript `a || b` on strings: the empty string is falsy. -/
def strOr (a b : String) : String :=
  if a = "" then b else a

/-- JavaScript String.prototype.trim, modelled directly on the
character list: drop leading and trailing whitespace. -/
def jsTrim (s : String) : String :=
  ⟨((s.data.dropWhile Char.isWhitespace).reverse.dropWhile Char.isWhitespace).reverse⟩

/-- The form state shared by TaskManager and QuickAddTask:
title, description, category, deadline, all strings. -/
structure FormData where
  title : String
  description : String
  category : String
  deadline : String
deriving DecidableEq

/-- The taskDataForPriority object built by both creation handlers. -/
structure TaskDataForPriority where
  title : String
  description : String
  category_id : String
  deadline : String
deriving DecidableEq

/-- Return shape of ApiService.calculatePriority. -/
structure PriorityResult where
  priority_score : ℚ
  priority : String
  reasoning : String
deriving DecidableEq

/-- The taskData payload passed to ApiService.createTask by both
creation handlers. -/
structure TaskData where
  title : String
  description : String
  category_id : String
  priority : String
  priority_score : ℚ
  deadline : String
  status : String
  ai_suggestions : Option AISuggestions
deriving DecidableEq

/-- Outcome of one run of a creation handler: either the early return
with the destructive "Title Required" toast (no API call is made), or
the pair of payloads sent to calculatePriority and createTask. -/
inductive CreateResult
  | rejected (toastTitle : String)
  | created (forPriority : TaskDataForPriority) (taskData : TaskData)
deriving DecidableEq

namespace TaskManager

/-- handleCreateTask from src/unnamed/part_001 (lines 81 to 140).
The clock is passed in as now7, the ISO date string the source computes
as new Date(Date.now() + 7 * 24 * 60 * 60 * 1000); the backend call
apiService.calculatePriority is passed in as the function calc; the
component state aiSuggestions is the argument ai. -/
def handleCreateTask (now7 : String)
    (calcPriority : TaskDataForPriority → PriorityResult)
    (ai : Option AISuggestions) (formData : FormData) : CreateResult :=
  if jsTrim formData.title = "" then
    .rejected ("Title Required")
  else
    let taskDataForPriority : TaskDataForPriority :=
      { title := jsTrim formData.title
        description := jsTrim formData.description
        category_id := strOr formData.category ("Personal")
        deadline := strOr formData.deadline now7 }
    let priorityResult := calcPriority taskDataForPriority
    .created taskDataForPriority
      { title := jsTrim formData.title
        description := jsTrim formData.description
        category_id := strOr formData.category ("Personal")
        priority := priorityResult.priority
        priority_score := priorityResult.priority_score
        deadline := strOr formData.deadline now7
        status := "todo"
        ai_suggestions := ai }

end TaskManager

namespace QuickAddTask

/-- handleSubmit from src/components/quick-add-task.tsx (lines 79 to
138); the same shape as TaskManager.handleCreateTask, modelled
separately because the source duplicates the flow. -/
def handleSubmit (now7 : String)
    (calcPriority : TaskDataForPriority → PriorityResult)
    (ai : Option AISuggestions) (formData : FormData) : CreateResult :=
  if jsTrim formData.title = "" then
    .rejected ("Title Required")
  else
    let taskDataForPriority : TaskDataForPriority :=
      { title := jsTrim formData.title
        description := jsTrim formData.description
        category_id := strOr formData.category ("Personal")
        deadline := strOr formData.deadline now7 }
    let priorityResult := calcPriority taskDataForPriority
    .created taskDataForPriority
      { title := jsTrim formData.title
        description := jsTrim formData.description
        category_id := strOr formData.category ("Personal")
        priority := priorityResult.priority
        priority_score := priorityResult.priority_score
        deadline := strOr formData.deadline now7
        status := "todo"
        ai_suggestions := ai }

end QuickAddTask

namespace TaskCard

/-- isOverdue from src/components/task-card.tsx line 126:
task.deadline ? new Date(task.deadline) < new Date() && task.status is
not completed : false. Date comparison on ISO strings is modelled as
the lexicographic string order against the supplied now. -/
def isOverdue (now : String) (task : Task) : Bool :=
  match task.deadline with
  | some d => decide (d < now) && decide (task.status ≠ .completed)
  | none => false

end TaskCard

namespace Dashboard

/-- The stats record computed by the Dashboard useMemo in
src/unnamed/part_003 (lines 34 to 42). -/
structure Stats where
  total : Nat
  completed : Nat
  inProgress : Nat
  overdue : Nat
deriving DecidableEq

/-- The Dashboard stats computation: total, completed, inProgress by
status, and overdue by reading the stored is_overdue field of each
task. -/
def stats (tasks : List Task) : Stats :=
  { total := tasks.length
    completed := (tasks.filter fun t => decide (t.status = .completed)).length
    inProgress := (tasks.filter fun t => decide (t.status = .inProgress)).length
    overdue := (tasks.filter fun t => t.is_overdue).length }

end Dashboard

/-- JSON values, for the response shapes the collection fetchers
handle. -/
inductive Json
  | null
  | bool (b : Bool)
  | num (q : ℚ)
  | str (s : String)
  | arr (elems : List Json)
  | obj (fields : List (String × Json))

namespace Json

/-- JavaScript truthiness of a JSON value: null, false, 0 and the empty
string are falsy; arrays and objects are always truthy. -/
def truthy : Json → Bool
  | .null => false
  | .bool b => b
  | .num q => decide (q ≠ 0)
  | .str s => decide (s ≠ "")
  | .arr _ => true
  | .obj _ => true

/-- Property access v.results: the first field of that name on an
object, undefined (none) otherwise. -/
def field (v : Json) (name : String) : Option Json :=
  match v with
  | .obj fields => (fields.find? fun p => p.1 == name).map Prod.snd
  | _ => none

/-- Array.isArray. -/
def isArr : Json → Bool
  | .arr _ => true
  | _ => false

end Json

namespace ApiService

/-- getTasks from src/lib/api-service.ts (lines 100 to 124), pagination
handling only: if (response && response.results) return
response.results; return Array.isArray(response) ? response : []. -/
def getTasks (response : Json) : Json :=
  if response.truthy && ((response.field ("results")).map Json.truthy).getD false then
    (response.field ("results")).getD .null
  else if response.isArr then response else .arr []

/-- getCategories from src/lib/api-service.ts (lines 151 to 161); the
source duplicates the pagination handling of getTasks. -/
def getCategories (response : Json) : Json :=
  if response.truthy && ((response.field ("results")).map Json.truthy).getD false then
    (response.field ("results")).getD .null
  else if response.isArr then response else .arr []

/-- getContexts from src/lib/api-service.ts (lines 171 to 181); again
the same pagination handling. -/
def getContexts (response : Json) : Json :=
  if response.truthy && ((response.field ("results")).map Json.truthy).getD false then
    (response.field ("results")).getD .null
  else if response.isArr then response else .arr []

end ApiService

namespace PriorityScorer

/-- Modelled from the spec: the priority label thresholds of the
backend calculate-priority operation (spec section 4.2); the backend
scorer itself is not under src/, only its caller
ApiService.calculatePriority is. Thresholds: score at least 0.75 gives
urgent, at least 0.5 gives high, at least 0.25 gives medium, otherwise
low. -/
def priorityLabel (score : ℚ) : Priority :=
  if 3/4 ≤ score then .urgent
  else if 1/2 ≤ score then .high
  else if 1/4 ≤ score then .medium
  else .low

/-- Rank of a priority label, low to urgent, for stating that scores
order consistently with labels. -/
def labelRank : Priority → Nat
  | .low => 0
  | .medium => 1
  | .high => 2
  | .urgent => 3

end PriorityScorer

namespace SuggestionOrchestrator

/-- The response shape of the suggestions boundary operation (spec
section 6). -/
structure SuggestionResult where
  suggested_category : Option String
  suggested_deadline : Option String
  enhanced_description : Option String
  reasoning : Option String
  priority_score : Option ℚ
deriving DecidableEq

/-- Modelled from the spec: the outcome of the single bounded external
provider attempt of the SuggestionOrchestrator (spec section 4.5); the
orchestrator is backend code not under src/. -/
inductive ProviderOutcome
  | success (r : SuggestionResult)
  | timeout
  | networkFailure
  | malformed
deriving DecidableEq

/-- Modelled from the spec: the SuggestionOrchestrator resolution step
(spec section 4.5), backend code not under src/. The local
deterministic result is always computed first; on provider success the
presentation fields are superseded and the deterministic score is
retained unless the provider overrides it with a validated value in
[0,1]; on timeout, network failure or malformed response the attempt is
discarded and the local result is returned unchanged. The return type
is total: no provider error is propagated. -/
def orchestrate (localResult : SuggestionResult)
    (outcome : ProviderOutcome) : SuggestionResult :=
  match outcome with
  | .success r =>
      { suggested_category := r.suggested_category.orElse fun _ => localResult.suggested_category
        suggested_deadline := r.suggested_deadline.orElse fun _ => localResult.suggested_deadline
        enhanced_description := r.enhanced_description.orElse fun _ => localResult.enhanced_description
        reasoning := r.reasoning.orElse fun _ => localResult.reasoning
        priority_score :=
          match r.priority_score with
          | some s => if 0 ≤ s ∧ s ≤ 1 then some s else localResult.priority_score
          | none => localResult.priority_score }
  | .timeout => localResult
  | .networkFailure => localResult
  | .malformed => localResult

end SuggestionOrchestrator

namespace InsightAggregator

/-- Modelled from the spec: the task shape the backend InsightAggregator
reads (spec section 4.4); the aggregator is backend code not under
src/. completedDaysAgo is how many days ago a completed task was
completed. -/
structure AggTask where
  status : Status
  priority : Priority
  categoryName : Option String
  is_overdue : Bool
  completedDaysAgo : Nat
deriving DecidableEq

/-- The AnalyticsSnapshot value object of the spec (section 3). -/
structure AnalyticsSnapshot where
  productivity : ℚ
  burnout : ℚ
  focus : List String
  recommendations : List String
deriving DecidableEq

/-- clamp01 from the spec formulas. -/
def clamp01 (q : ℚ) : ℚ := max 0 (min 1 q)

/-- Modelled from the spec: recency weight of a completion
(section 4.4): within the last 7 days full weight, older than 30 days
half weight. -/
def completionWeight (daysAgo : Nat) : ℚ :=
  if daysAgo ≤ 7 then 1 else if 30 < daysAgo then 1/2 else 1

/-- Count of tasks whose category name is the given one. -/
def categoryCount (tasks : List AggTask) (name : String) : Nat :=
  (tasks.filter fun t => decide (t.categoryName = some name)).length

/-- Insert into a list sorted by task count descending, ties broken
alphabetically. -/
def focusInsert (tasks : List AggTask) (name : String) :
    List String → List String
  | [] => [name]
  | m :: rest =>
      if categoryCount tasks m < categoryCount tasks name ∨
          (categoryCount tasks m = categoryCount tasks name ∧ name ≤ m) then
        name :: m :: rest
      else
        m :: focusInsert tasks name rest

/-- Sort category names by task count descending, alphabetical on
ties. -/
def focusSort (tasks : List AggTask) : List String → List String
  | [] => []
  | n :: rest => focusInsert tasks n (focusSort tasks rest)

/-- Modelled from the spec: aggregate(tasks, contexts) of the backend
InsightAggregator (spec section 4.4), a pure function of its two input
collections; backend code not under src/, only its caller
ApiService.generateInsights is. The contexts collection is part of the
contract but none of the four published formulas reads it. -/
def aggregate (tasks : List AggTask) (contexts : List ContextEntry) :
    AnalyticsSnapshot :=
  let _ := contexts
  let total : ℚ := tasks.length
  let denom : ℚ := max 1 total
  let weightedCompleted : ℚ :=
    ((tasks.filter fun t => decide (t.status = .completed)).map
      fun t => completionWeight t.completedDaysAgo).sum
  let productivity := max 0 (min 100 (100 * weightedCompleted / denom))
  let urgentCount : ℚ := (tasks.filter fun t => decide (t.priority = .urgent)).length
  let overdueCount : ℚ := (tasks.filter fun t => t.is_overdue).length
  let urgentFrac := urgentCount / denom
  let overdueFrac := overdueCount / denom
  let burnout := 100 * clamp01 (6/10 * urgentFrac + 4/10 * overdueFrac)
  let names := (tasks.filterMap fun t => t.categoryName).dedup
  let focus := (focusSort tasks names).take 5
  let recommendations :=
    (if 70 ≤ burnout then ["Consider deferring non-urgent work."] else []) ++
    (if 1/5 < overdueFrac then ["Schedule a deadline review session."] else []) ++
    (if names.any fun n => decide (tasks.length < 2 * categoryCount tasks n) then
      ["Rebalance focus across categories."] else []) ++
    (if productivity < 40 ∧ 5 ≤ tasks.length then
      ["Break tasks into smaller units."] else [])
  { productivity := productivity
    burnout := burnout
    focus := focus
    recommendations := recommendations }

end InsightAggregator

/-! ## Theorems for the claims -/

/-- C9: for every state and every DELETE_TASK action, taskReducer keeps
the contexts, categories, loading and error fields unchanged, and the
resulting tasks list is exactly the original list with every task whose
id equals the action payload removed and all other tasks preserved in
order. -/
theorem taskReducer_deleteTask_frame (state : TaskState) (payload : String) :
    (taskReducer state (.DELETE_TASK payload)).contexts = state.contexts ∧
    (taskReducer state (.DELETE_TASK payload)).categories = state.categories ∧
    (taskReducer state (.DELETE_TASK payload)).loading = state.loading ∧
    (taskReducer state (.DELETE_TASK payload)).error = state.error ∧
    (taskReducer state (.DELETE_TASK payload)).tasks =
      state.tasks.filter (fun task => decide (task.id ≠ payload)) ∧
    (taskReducer state (.DELETE_TASK payload)).tasks.Sublist state.tasks ∧
    (∀ task ∈ (taskReducer state (.DELETE_TASK payload)).tasks, task.id ≠ payload) ∧
    (∀ task ∈ state.tasks, task.id ≠ payload →
      task ∈ (taskReducer state (.DELETE_TASK payload)).tasks) := by
  refine ⟨rfl, rfl, rfl, rfl, rfl, List.filter_sublist _, ?_, ?_⟩
  · intro task h
    simp only [taskReducer, List.mem_filter, decide_eq_true_eq] at h
    exact h.2
  · intro task h hn
    simp only [taskReducer, List.mem_filter, decide_eq_true_eq]
    exact ⟨h, hn⟩

/-- C1: for every priority-scoring request whose title is empty or
whitespace-only, both creation flows reject with the Title Required
validation toast, the result does not depend on the priority
calculation (so calculatePriority is never consulted), and no task
payload is produced for createTask. -/
theorem createFlows_reject_blank_title (now7 : String)
    (calcPriority : TaskDataForPriority → PriorityResult)
    (ai : Option AISuggestions) (formData : FormData)
    (h : jsTrim formData.title = "") :
    TaskManager.handleCreateTask now7 calcPriority ai formData =
      .rejected ("Title Required") ∧
    QuickAddTask.handleSubmit now7 calcPriority ai formData =
      .rejected ("Title Required") ∧
    (∀ calcPriority2 : TaskDataForPriority → PriorityResult,
      TaskManager.handleCreateTask now7 calcPriority ai formData =
        TaskManager.handleCreateTask now7 calcPriority2 ai formData) ∧
    (∀ calcPriority2 : TaskDataForPriority → PriorityResult,
      QuickAddTask.handleSubmit now7 calcPriority ai formData =
        QuickAddTask.handleSubmit now7 calcPriority2 ai formData) := by
  simp [TaskManager.handleCreateTask, QuickAddTask.handleSubmit, h]

/-- Witness for C1 at a whitespace-only title. -/
theorem createFlows_reject_blank_title_witness :
    jsTrim (" ") = "" ∧
    TaskManager.handleCreateTask ("2025-01-08") (fun _ => ⟨0, "low", "r"⟩) none
      ⟨" ", "", "", ""⟩ = .rejected ("Title Required") ∧
    QuickAddTask.handleSubmit ("2025-01-08") (fun _ => ⟨0, "low", "r"⟩) none
      ⟨" ", "", "", ""⟩ = .rejected ("Title Required") := by
  have h : jsTrim (" ") = "" := by decide
  have main := createFlows_reject_blank_title ("2025-01-08")
    (fun _ => ⟨0, "low", "r"⟩) none ⟨" ", "", "", ""⟩ h
  exact ⟨h, main.1, main.2.1⟩

/-- Counterexample for C3: with an absent deadline, the created task
payload stored via createTask carries the defaulted now+7 deadline, so
the stored task does not keep its absent deadline. -/
theorem create_stores_default_deadline_cex :
    TaskManager.handleCreateTask ("2025-01-08") (fun _ => ⟨1/2, "high", "ok"⟩) none
        ⟨"a", "", "", ""⟩ =
      .created ⟨"a", "", "Personal", "2025-01-08"⟩
        ⟨"a", "", "Personal", "high", 1/2, "2025-01-08", "todo", none⟩ ∧
    ("2025-01-08" : String) ≠ "" :=
  ⟨by rfl, by decide⟩

/-- C3 as amended: for every scoring request with no deadline, both
creation flows use the now+7 default deadline for the scoring payload,
and the same defaulted deadline is also written into the task payload
sent to createTask: the stored task does not keep its absent
deadline. -/
theorem createFlows_default_deadline (now7 : String)
    (calcPriority : TaskDataForPriority → PriorityResult)
    (ai : Option AISuggestions) (formData : FormData)
    (h1 : jsTrim formData.title ≠ "") (h2 : formData.deadline = "") :
    ∃ tdp1 td1 tdp2 td2,
      TaskManager.handleCreateTask now7 calcPriority ai formData = .created tdp1 td1 ∧
      tdp1.deadline = now7 ∧ td1.deadline = now7 ∧
      QuickAddTask.handleSubmit now7 calcPriority ai formData = .created tdp2 td2 ∧
      tdp2.deadline = now7 ∧ td2.deadline = now7 := by
  unfold TaskManager.handleCreateTask QuickAddTask.handleSubmit
  simp only [if_neg h1]
  exact ⟨_, _, _, _, rfl, by simp [strOr, h2], by simp [strOr, h2],
    rfl, by simp [strOr, h2], by simp [strOr, h2]⟩

/-- Witness for the amended C3 at a request with no deadline. -/
theorem createFlows_default_deadline_witness :
    jsTrim ("a") ≠ "" ∧
    (∃ tdp1 td1 tdp2 td2,
      TaskManager.handleCreateTask ("2025-01-08") (fun _ => ⟨0, "low", "r"⟩) none
        ⟨"a", "", "", ""⟩ = .created tdp1 td1 ∧
      tdp1.deadline = "2025-01-08" ∧ td1.deadline = "2025-01-08" ∧
      QuickAddTask.handleSubmit ("2025-01-08") (fun _ => ⟨0, "low", "r"⟩) none
        ⟨"a", "", "", ""⟩ = .created tdp2 td2 ∧
      tdp2.deadline = "2025-01-08" ∧ td2.deadline = "2025-01-08") :=
  ⟨by decide, createFlows_default_deadline ("2025-01-08") (fun _ => ⟨0, "low", "r"⟩)
    none ⟨"a", "", "", ""⟩ (by decide) rfl⟩

/-- C7: for every scoring request with no category supplied, both
creation flows default the category used for scoring (and the stored
payload) to Personal. -/
theorem createFlows_default_category (now7 : String)
    (calcPriority : TaskDataForPriority → PriorityResult)
    (ai : Option AISuggestions) (formData : FormData)
    (h1 : jsTrim formData.title ≠ "") (h2 : formData.category = "") :
    ∃ tdp1 td1 tdp2 td2,
      TaskManager.handleCreateTask now7 calcPriority ai formData = .created tdp1 td1 ∧
      tdp1.category_id = "Personal" ∧ td1.category_id = "Personal" ∧
      QuickAddTask.handleSubmit now7 calcPriority ai formData = .created tdp2 td2 ∧
      tdp2.category_id = "Personal" ∧ td2.category_id = "Personal" := by
  unfold TaskManager.handleCreateTask QuickAddTask.handleSubmit
  simp only [if_neg h1]
  exact ⟨_, _, _, _, rfl, by simp [strOr, h2], by simp [strOr, h2],
    rfl, by simp [strOr, h2], by simp [strOr, h2]⟩

/-- Witness for C7 at a request with no category. -/
theorem createFlows_default_category_witness :
    jsTrim ("a") ≠ "" ∧
    (∃ tdp1 td1 tdp2 td2,
      TaskManager.handleCreateTask ("2025-01-08") (fun _ => ⟨0, "low", "r"⟩) none
        ⟨"a", "", "", ""⟩ = .created tdp1 td1 ∧
      tdp1.category_id = "Personal" ∧ td1.category_id = "Personal" ∧
      QuickAddTask.handleSubmit ("2025-01-08") (fun _ => ⟨0, "low", "r"⟩) none
        ⟨"a", "", "", ""⟩ = .created tdp2 td2 ∧
      tdp2.category_id = "Personal" ∧ td2.category_id = "Personal") :=
  ⟨by decide, createFlows_default_category ("2025-01-08") (fun _ => ⟨0, "low", "r"⟩)
    none ⟨"a", "", "", ""⟩ (by decide) rfl⟩

/-- C10: every task payload submitted through either creation flow has
status todo and whitespace-trimmed title and description. -/
theorem createFlows_create_todo_trimmed (now7 : String)
    (calcPriority : TaskDataForPriority → PriorityResult)
    (ai : Option AISuggestions) (formData : FormData)
    (tdp1 tdp2 : TaskDataForPriority) (td1 td2 : TaskData) :
    (TaskManager.handleCreateTask now7 calcPriority ai formData = .created tdp1 td1 →
      td1.status = "todo" ∧ td1.title = jsTrim formData.title ∧
      td1.description = jsTrim formData.description) ∧
    (QuickAddTask.handleSubmit now7 calcPriority ai formData = .created tdp2 td2 →
      td2.status = "todo" ∧ td2.title = jsTrim formData.title ∧
      td2.description = jsTrim formData.description) := by
  constructor
  · intro h
    unfold TaskManager.handleCreateTask at h
    by_cases hb : jsTrim formData.title = ""
    · simp [hb] at h
    · rw [if_neg hb] at h
      injection h with h1 h2
      subst h2
      exact ⟨rfl, rfl, rfl⟩
  · intro h
    unfold QuickAddTask.handleSubmit at h
    by_cases hb : jsTrim formData.title = ""
    · simp [hb] at h
    · rw [if_neg hb] at h
      injection h with h1 h2
      subst h2
      exact ⟨rfl, rfl, rfl⟩

/-- Counterexample for C4: a task whose stored is_overdue flag is true
although it has no deadline; Dashboard stats counts it as overdue by
reading the stored flag, while the derived value computed by TaskCard
is false, so is_overdue is read independently of deadline and status
and can disagree with the derived value. -/
theorem is_overdue_stored_cex :
    (Dashboard.stats [⟨"t1", "x", "", none, none, .low, 0, none, .todo, none,
        [], "", "", true, none⟩]).overdue = 1 ∧
    TaskCard.isOverdue ("2025-06-01") ⟨"t1", "x", "", none, none, .low, 0, none,
        .todo, none, [], "", "", true, none⟩ = false :=
  ⟨by rfl, by rfl⟩

/-- C4 as amended: TaskCard computes its overdue flag as the derived
value (deadline before now AND status not completed), but the Task
record also carries a stored is_overdue field, and Dashboard stats
counts overdue tasks by reading that stored field directly, which is
independent of deadline and status. -/
theorem isOverdue_derived_stats_reads_stored (now : String) (task : Task)
    (tasks : List Task) :
    (TaskCard.isOverdue now task = true ↔
      (∃ d, task.deadline = some d ∧ d < now ∧ task.status ≠ .completed)) ∧
    (Dashboard.stats tasks).overdue =
      (tasks.filter fun t => t.is_overdue).length := by
  constructor
  · cases h : task.deadline <;> simp [TaskCard.isOverdue, h]
  · rfl

/-- Counterexample for C8: a paginated response whose results field is
the number 5 makes every collection fetcher return that non-array
value. -/
theorem fetchers_nonarray_results_cex :
    (ApiService.getTasks (Json.obj [("results", Json.num 5)])).isArr = false ∧
    (ApiService.getCategories (Json.obj [("results", Json.num 5)])).isArr = false ∧
    (ApiService.getContexts (Json.obj [("results", Json.num 5)])).isArr = false :=
  ⟨by rfl, by rfl, by rfl⟩

/-- C8 as amended: the fetchers return the results field of the
response when it is present and truthy, the response itself when it is
an array, and the empty array otherwise; whenever the results field,
if present and truthy, is an array — in particular for every paginated
or plain-array response — the returned value is an array. -/
theorem fetchers_paginated_shape (response : Json)
    (h : ∀ r, response.field ("results") = some r → r.truthy = true →
      r.isArr = true) :
    (ApiService.getTasks response).isArr = true ∧
    (ApiService.getCategories response).isArr = true ∧
    (ApiService.getContexts response).isArr = true := by
  have key : (if response.truthy &&
        ((response.field ("results")).map Json.truthy).getD false then
        (response.field ("results")).getD .null
      else if response.isArr then response else .arr []).isArr = true := by
    by_cases h1 : (response.truthy &&
        ((response.field ("results")).map Json.truthy).getD false) = true
    · rw [if_pos h1]
      rcases h3 : response.field ("results") with _ | r
      · rw [h3] at h1
        simp at h1
      · rw [h3] at h1
        simp only [Option.getD_some]
        simp at h1
        exact h r h3 h1.2
    · rw [if_neg h1]
      by_cases h2 : response.isArr = true
      · rw [if_pos h2]
        exact h2
      · rw [if_neg h2]
        rfl
  exact ⟨key, key, key⟩

/-- Witness for the amended C8 at a plain-array response. -/
theorem fetchers_paginated_shape_witness :
    (ApiService.getTasks (Json.arr [])).isArr = true ∧
    (ApiService.getCategories (Json.arr [])).isArr = true ∧
    (ApiService.getContexts (Json.arr [])).isArr = true :=
  fetchers_paginated_shape (Json.arr []) (fun r hr => by
    simp [Json.field] at hr)

/-- C2: when the external provider attempt ends in timeout, network
failure or a malformed response, the orchestrated suggestions result
equals the locally computed deterministic result unchanged; the
orchestration is a total function, so no provider error reaches the
caller. -/
theorem orchestrate_provider_failure
    (localResult : SuggestionOrchestrator.SuggestionResult)
    (outcome : SuggestionOrchestrator.ProviderOutcome)
    (h : outcome = .timeout ∨ outcome = .networkFailure ∨ outcome = .malformed) :
    SuggestionOrchestrator.orchestrate localResult outcome = localResult := by
  rcases h with h | h | h <;> subst h <;> rfl

/-- Witness for C2 at a provider timeout. -/
theorem orchestrate_provider_failure_witness :
    SuggestionOrchestrator.orchestrate ⟨none, none, none, none, none⟩ .timeout =
      ⟨none, none, none, none, none⟩ :=
  orchestrate_provider_failure ⟨none, none, none, none, none⟩ .timeout (Or.inl rfl)

/-- C5: the priority label is determined from the score by the fixed
thresholds (0.75 urgent, 0.5 high, 0.25 medium, else low), and the
label rank is monotone in the score, so priority scores order
consistently with priority labels. -/
theorem priorityLabel_thresholds (s t : ℚ) (h : s ≤ t) :
    PriorityScorer.labelRank (PriorityScorer.priorityLabel s) ≤
      PriorityScorer.labelRank (PriorityScorer.priorityLabel t) ∧
    (PriorityScorer.priorityLabel s = .urgent ↔ 3/4 ≤ s) ∧
    (PriorityScorer.priorityLabel s = .high ↔ 1/2 ≤ s ∧ s < 3/4) ∧
    (PriorityScorer.priorityLabel s = .medium ↔ 1/4 ≤ s ∧ s < 1/2) ∧
    (PriorityScorer.priorityLabel s = .low ↔ s < 1/4) := by
  unfold PriorityScorer.priorityLabel
  refine ⟨?_, ?_, ?_, ?_, ?_⟩ <;>
    split_ifs <;> simp_all [PriorityScorer.labelRank] <;> intros <;> linarith

/-- Witness for C5 at scores 0 and 1. -/
theorem priorityLabel_thresholds_witness :
    ((0:ℚ) ≤ 1) ∧
    (PriorityScorer.labelRank (PriorityScorer.priorityLabel 0) ≤
      PriorityScorer.labelRank (PriorityScorer.priorityLabel 1) ∧
    (PriorityScorer.priorityLabel 0 = .urgent ↔ 3/4 ≤ (0:ℚ)) ∧
    (PriorityScorer.priorityLabel 0 = .high ↔ 1/2 ≤ (0:ℚ) ∧ (0:ℚ) < 3/4) ∧
    (PriorityScorer.priorityLabel 0 = .medium ↔ 1/4 ≤ (0:ℚ) ∧ (0:ℚ) < 1/2) ∧
    (PriorityScorer.priorityLabel 0 = .low ↔ (0:ℚ) < 1/4)) :=
  ⟨by norm_num, priorityLabel_thresholds 0 1 (by norm_num)⟩

/-- C6: insight aggregation applied to zero tasks and zero contexts
returns productivity 0, burnout 0, an empty focus set and an empty
recommendations sequence; the aggregation is a total function, so the
empty input is not an error. -/
theorem aggregate_empty :
    InsightAggregator.aggregate [] [] =
      { productivity := 0, burnout := 0, focus := [], recommendations := [] } := by
  unfold InsightAggregator.aggregate
  norm_num [InsightAggregator.clamp01, InsightAggregator.focusSort]

/-- Witness for C10 at a concrete submission with untrimmed fields. -/
theorem createFlows_create_todo_trimmed_witness :
    (TaskData.mk ("Buy milk") ("details") ("Personal") ("high") 0
        ("2025-01-08") ("todo") none).status = "todo" ∧
    (TaskData.mk ("Buy milk") ("details") ("Personal") ("high") 0
        ("2025-01-08") ("todo") none).title = jsTrim (" Buy milk ") ∧
    (TaskData.mk ("Buy milk") ("details") ("Personal") ("high") 0
        ("2025-01-08") ("todo") none).description = jsTrim (" details ") :=
  (createFlows_create_todo_trimmed ("2025-01-08") (fun _ => ⟨0, "high", "r"⟩) none
      ⟨" Buy milk ", " details ", "", ""⟩
      ⟨"Buy milk", "details", "Personal", "2025-01-08"⟩
      ⟨"Buy milk", "details", "Personal", "2025-01-08"⟩
      (TaskData.mk ("Buy milk") ("details") ("Personal") ("high") 0
        ("2025-01-08") ("todo") none)
      (TaskData.mk ("Buy milk") ("details") ("Personal") ("high") 0
        ("2025-01-08") ("todo") none)).1 (by rfl)

end SmartTodo
